import Mathlib

/-!
Verification of the DynUNet construction and forward-evaluation code
(`monai/networks/nets/dynunet.py`).

The embedding models the network structurally: convolution blocks are symbolic
records of the parameters the Python code passes to the external block library
(`UnetBasicBlock`/`UnetResBlock`/`UnetUpBlock`/`UnetOutBlock`/`UNetClsOutBlock`),
and tensors are symbolic expression trees recording which blocks were applied.
The `dropout`, `norm_name` and `act_name` arguments are forwarded verbatim to
every block by the source and never inspected, so they are not carried in the
block records. Python list indexing (with negative indices raising `IndexError`
when out of range), slicing, `zip` truncation and list multiplication are
modelled exactly.
-/

/-- A per-stage kernel / stride / output-padding entry: a Python `int` scalar
or a per-axis tuple of ints. -/
inductive Param where
  | scalar (n : Int)
  | vec (l : List Int)
deriving DecidableEq, Repr

/-- Symbolic record of an instantiated block from the external block library,
carrying exactly the parameters the DynUNet code passes to it. -/
inductive Block where
  /-- `UnetResBlock` (res = true) or `UnetBasicBlock` (res = false). -/
  | conv (res : Bool) (spatial_dims in_channels out_channels : Nat)
      (kernel stride : Param)
  /-- `UnetUpBlock` as built by `get_module_list` with `upsample=True`. -/
  | up (spatial_dims in_channels out_channels : Nat)
      (kernel stride output_padding : Param) (trans_bias : Bool)
  /-- `UnetOutBlock` as built by `get_seg_output_block`. -/
  | segOut (spatial_dims in_channels out_channels : Nat)
  /-- `UNetClsOutBlock` as built by `get_cls_output_block`. -/
  | clsOut (spatial_dims in_channels out_channels : Nat)
      (pool_type : String) (pool_fmap : Nat)
deriving DecidableEq, Repr

/-- Symbolic tensor expressions produced during a forward pass. -/
inductive Tensor where
  /-- the external input `x` of `DynUNet.forward`. -/
  | input
  /-- the `torch.empty(1)` placeholder filling the head buffer at construction. -/
  | placeholder
  /-- a single-argument module applied to a tensor. -/
  | apply (b : Block) (t : Tensor)
  /-- `UnetUpBlock.forward(coarse, skip)`: the two-argument upsample call. -/
  | applyUp (b : Block) (coarse skip : Tensor)
  /-- `interpolate(t, target.shape[2:])`: `t` resized to the spatial shape of
  `target`. -/
  | interpolated (t : Tensor) (target : Tensor)
  /-- `torch.stack(ts, dim)`. -/
  | stack (dim : Nat) (ts : List Tensor)

/-- The recursive skip-layer chain: `DynUNetSkipLayer` nodes terminated by the
raw bottleneck block (the `next_layer` of the bottommost skip layer). -/
inductive SkipNode where
  | leaf (bottleneck : Block)
  | skip (index : Nat) (downsample upsample : Block) (next_layer : SkipNode)
      (super_head : Option Block)

/-- The distinct `ValueError` / `IndexError` conditions of the constructor,
named after the spec's error taxonomy. -/
inductive InitError where
  /-- "length of kernel_size and strides should be the same, and no less than 3." -/
  | lengthMismatch
  /-- "length of kernel_size in block {idx} should be the same as spatial_dims." -/
  | kernelShapeError (idx : Nat)
  /-- "length of stride in block {idx} should be the same as spatial_dims." -/
  | strideShapeError (idx : Nat)
  /-- "length of filters should be no less than the length of strides." -/
  | insufficientFilters
  /-- "deep_supr_num should be less than the number of up sample layers." -/
  | deepSupervisionRange
  /-- the `ValueError` raised by `create_skips` on diverging stage counts. -/
  | structureMismatch (nDown nUp : Nat)
  /-- a Python `IndexError` from out-of-range list indexing. -/
  | indexError
deriving DecidableEq, Repr

/-- The constructor arguments of `DynUNet.__init__` that the claims depend on. -/
structure Spec where
  spatial_dims : Nat
  in_channels : Nat
  cls_out_channels : Nat
  seg_out_channels : Nat
  kernel_size : List Param
  strides : List Param
  output_paddings : List Param
  filters : Option (List Nat)
  deep_supr_num : Int
  res_block : Bool
  trans_bias : Bool
  pool_type : String
  pool_fmap : Nat

/-- Python list indexing `l[i]`: nonnegative indices from the front, negative
indices from the back, `none` (an `IndexError`) when out of range. -/
def pyGet? {α : Type} (l : List α) (i : Int) : Option α :=
  if 0 ≤ i then l.get? i.toNat
  else if i + l.length < 0 then none
  else l.get? (i + l.length).toNat

/-- Python `zip` over four lists: truncates at the shortest. -/
def zip4 {α β γ δ : Type} : List α → List β → List γ → List δ → List (α × β × γ × δ)
  | a :: as, b :: bs, c :: cs, d :: ds => (a, b, c, d) :: zip4 as bs cs ds
  | _, _, _, _ => []

/-- Python `zip` over five lists: truncates at the shortest. -/
def zip5 {α β γ δ ε : Type} :
    List α → List β → List γ → List δ → List ε → List (α × β × γ × δ × ε)
  | a :: as, b :: bs, c :: cs, d :: ds, e :: es => (a, b, c, d, e) :: zip5 as bs cs ds es
  | _, _, _, _, _ => []

/-- Left-to-right effectful map in the `Except` monad, stopping at the first
error, as a Python loop building a list would. -/
def mapMExcept {α β : Type} (f : α → Except InitError β) : List α → Except InitError (List β)
  | [] => .ok []
  | a :: as =>
    match f a with
    | .error e => .error e
    | .ok b =>
      match mapMExcept f as with
      | .error e => .error e
      | .ok bs => .ok (b :: bs)

/-- Line 164: `[min(2 ** (5 + i), 320 if spatial_dims == 3 else 512)
for i in range(len(strides))]`. -/
def deriveFilters (spatial_dims numStrides : Nat) : List Nat :=
  (List.range numStrides).map fun i => min (2 ^ (5 + i)) (if spatial_dims = 3 then 320 else 512)

/-- Lines 163-166: the filter list in force after the `filters is None` default. -/
def filtersOf (s : Spec) : List Nat :=
  match s.filters with
  | none => deriveFilters s.spatial_dims s.strides.length
  | some f => f

/-- `DynUNet.check_filters` (lines 247-252): rejects too-short filter lists and
truncates to `len(strides)` entries. -/
def DynUNet.check_filters (filters : List Nat) (strides : List Param) :
    Except InitError (List Nat) :=
  if filters.length < strides.length then .error .insufficientFilters
  else .ok (filters.take strides.length)

/-- The per-entry loop of `DynUNet.check_kernel_stride` (lines 236-245), over
`zip(kernels, strides)` with a running block index. -/
def DynUNet.check_kernel_stride_entries (spatial_dims : Nat) :
    Nat → List (Param × Param) → Except InitError Unit
  | _, [] => .ok ()
  | idx, (kernel, stride) :: rest =>
    match kernel with
    | .vec l =>
      if l.length ≠ spatial_dims then .error (.kernelShapeError idx)
      else
        match stride with
        | .vec l2 =>
          if l2.length ≠ spatial_dims then .error (.strideShapeError idx)
          else DynUNet.check_kernel_stride_entries spatial_dims (idx + 1) rest
        | .scalar _ => DynUNet.check_kernel_stride_entries spatial_dims (idx + 1) rest
    | .scalar _ =>
      match stride with
      | .vec l2 =>
        if l2.length ≠ spatial_dims then .error (.strideShapeError idx)
        else DynUNet.check_kernel_stride_entries spatial_dims (idx + 1) rest
      | .scalar _ => DynUNet.check_kernel_stride_entries spatial_dims (idx + 1) rest

/-- `DynUNet.check_kernel_stride` (lines 230-245). -/
def DynUNet.check_kernel_stride (s : Spec) : Except InitError Unit :=
  if s.kernel_size.length ≠ s.strides.length ∨ s.kernel_size.length < 3 then
    .error .lengthMismatch
  else DynUNet.check_kernel_stride_entries s.spatial_dims 0 (s.kernel_size.zip s.strides)

/-- `DynUNet.get_input_block` (lines 265-275): `conv_block(spatial_dims,
in_channels, filters[0], kernel_size[0], strides[0], ...)`. -/
def DynUNet.get_input_block (s : Spec) (filters : List Nat) : Except InitError Block :=
  match pyGet? filters 0, pyGet? s.kernel_size 0, pyGet? s.strides 0 with
  | some f0, some k0, some st0 =>
    .ok (.conv s.res_block s.spatial_dims s.in_channels f0 k0 st0)
  | _, _, _ => .error .indexError

/-- `DynUNet.get_bottleneck` (lines 277-287): `conv_block(spatial_dims,
filters[-2], filters[-1], kernel_size[-1], strides[-1], ...)`. -/
def DynUNet.get_bottleneck (s : Spec) (filters : List Nat) : Except InitError Block :=
  match pyGet? filters (-2), pyGet? filters (-1), pyGet? s.kernel_size (-1),
      pyGet? s.strides (-1) with
  | some fIn, some fOut, some k, some st =>
    .ok (.conv s.res_block s.spatial_dims fIn fOut k st)
  | _, _, _, _ => .error .indexError

/-- `DynUNet.get_cls_output_block` (lines 289-296): `UNetClsOutBlock(spatial_dims,
filters[idx], cls_out_channels, pool_type, pool_fmap)`. -/
def DynUNet.get_cls_output_block (s : Spec) (filters : List Nat) (idx : Int) :
    Except InitError Block :=
  match pyGet? filters idx with
  | some f => .ok (.clsOut s.spatial_dims f s.cls_out_channels s.pool_type s.pool_fmap)
  | none => .error .indexError

/-- `DynUNet.get_seg_output_block` (lines 298-299): `UnetOutBlock(spatial_dims,
filters[idx], seg_out_channels, ...)`. -/
def DynUNet.get_seg_output_block (s : Spec) (filters : List Nat) (idx : Int) :
    Except InitError Block :=
  match pyGet? filters idx with
  | some f => .ok (.segOut s.spatial_dims f s.seg_out_channels)
  | none => .error .indexError

/-- `DynUNet.get_downsamples` (lines 301-304) composed with `get_module_list`
(lines 321-366, `upsample=False`): slices `filters[:-2]`, `filters[1:-1]`,
`strides[1:-1]`, `kernel_size[1:-1]` and zips them into conv blocks. -/
def DynUNet.get_downsamples (s : Spec) (filters : List Nat) : List Block :=
  let inp := filters.take (filters.length - 2)
  let out := (filters.drop 1).take (filters.length - 2)
  let strides := (s.strides.drop 1).take (s.strides.length - 2)
  let kernel_size := (s.kernel_size.drop 1).take (s.kernel_size.length - 2)
  (zip4 inp out kernel_size strides).map fun p =>
    .conv s.res_block s.spatial_dims p.1 p.2.1 p.2.2.1 p.2.2.2

/-- `DynUNet.get_upsamples` (lines 306-319) composed with `get_module_list`
(`upsample=True`): reversed slices `filters[::-1][:-1]`, `filters[::-1][1:]`,
`kernel_size[::-1][:-1]`, `strides[::-1][:-1]`, `output_paddings[::-1]` zipped
into `UnetUpBlock`s. -/
def DynUNet.get_upsamples (s : Spec) (filters : List Nat) : List Block :=
  let in_channels := filters.reverse.take (filters.length - 1)
  let out_channels := filters.reverse.drop 1
  let strides := s.strides.reverse.take (s.strides.length - 1)
  let kernel_size := s.kernel_size.reverse.take (s.kernel_size.length - 1)
  let output_paddings := s.output_paddings.reverse
  (zip5 in_channels out_channels kernel_size strides output_paddings).map fun p =>
    .up s.spatial_dims p.1 p.2.1 p.2.2.1 p.2.2.2.1 p.2.2.2.2 s.trans_bias

/-- `DynUNet.get_deep_supervision_heads` (lines 368-372): range check followed by
`[self.get_seg_output_block(i + 1) for i in range(self.deep_supr_num)]`
(`range` of a nonpositive Python int is empty). -/
def DynUNet.get_deep_supervision_heads (s : Spec) (filters : List Nat) :
    Except InitError (List Block) :=
  let num_up_layers : Int := (s.strides.length : Int) - 1
  if num_up_layers ≤ s.deep_supr_num then .error .deepSupervisionRange
  else mapMExcept (fun (i : Nat) => DynUNet.get_seg_output_block s filters ((i : Int) + 1))
    (List.range s.deep_supr_num.toNat)

/-- `create_skips` (lines 185-220), the recursive skip-layer composer nested in
`DynUNet.__init__`. -/
def create_skips (index : Nat) (downsamples upsamples : List Block)
    (bottleneck : Block) (super_heads : List Block) : Except InitError SkipNode :=
  if downsamples.length ≠ upsamples.length then
    .error (.structureMismatch downsamples.length upsamples.length)
  else
    match downsamples, upsamples with
    | [], _ => .ok (.leaf bottleneck)
    | d :: ds, u :: us =>
      let popped : Option Block × List Block :=
        if 0 < index ∧ 0 < super_heads.length then (super_heads.head?, super_heads.tail)
        else (none, super_heads)
      match create_skips (1 + index) ds us bottleneck popped.2 with
      | .error e => .error e
      | .ok next_layer => .ok (.skip index d u next_layer popped.1)
    | _ :: _, [] => .error (.structureMismatch downsamples.length 0)

/-- Construction-progress markers: one per completed step of `DynUNet.__init__`,
in source order, used to observe which blocks were instantiated before a
validation failure. -/
inductive Event where
  | checkedFilters
  | builtInputBlock
  | builtDownsamples
  | builtBottleneck
  | builtUpsamples
  | builtClsOutputBlock
  | builtSegOutputBlock
  | builtDeepSupervisionHeads
  | checkedKernelStride
  | builtSkipLayers
deriving DecidableEq, Repr

/-- A fully constructed `DynUNet` instance: the fields of `self` that the
claims refer to. `heads_init` is the `[torch.empty(1)] * deep_supr_num`
placeholder buffer of line 179. -/
structure Network where
  filters : List Nat
  input_block : Block
  downsamples : List Block
  bottleneck : Block
  upsamples : List Block
  cls_output_block : Block
  seg_output_block : Block
  deep_supr_num : Int
  heads_init : List Tensor
  deep_supervision_heads : List Block
  skip_layers : SkipNode

/-- Sequencing helper for the traced constructor: on success the completion
event is appended; on failure the events completed so far are returned with
the error. -/
def withStep {α β : Type} (acc : List Event) (ev : Event) (x : Except InitError α)
    (k : List Event → α → List Event × Except InitError β) :
    List Event × Except InitError β :=
  match x with
  | .error e => (acc, .error e)
  | .ok a => k (acc ++ [ev]) a

/-- `DynUNet.__init__` (lines 128-228) with its steps in source order, returning
both the list of completed construction steps and the outcome. Note that the
kernel/stride check (line 183) runs after every stage block has been built, and
the deep-supervision range check (inside `get_deep_supervision_heads`, line 180)
runs after the input/downsample/bottleneck/upsample blocks. -/
def DynUNet.initTraced (s : Spec) : List Event × Except InitError Network :=
  withStep [] .checkedFilters (DynUNet.check_filters (filtersOf s) s.strides)
    fun evs filters =>
  withStep evs .builtInputBlock (DynUNet.get_input_block s filters)
    fun evs input_block =>
  withStep evs .builtDownsamples (.ok (DynUNet.get_downsamples s filters))
    fun evs downsamples =>
  withStep evs .builtBottleneck (DynUNet.get_bottleneck s filters)
    fun evs bottleneck =>
  withStep evs .builtUpsamples (.ok (DynUNet.get_upsamples s filters))
    fun evs upsamples =>
  withStep evs .builtClsOutputBlock (DynUNet.get_cls_output_block s filters (-1))
    fun evs cls_output_block =>
  withStep evs .builtSegOutputBlock (DynUNet.get_seg_output_block s filters 0)
    fun evs seg_output_block =>
  withStep evs .builtDeepSupervisionHeads (DynUNet.get_deep_supervision_heads s filters)
    fun evs deep_supervision_heads =>
  withStep evs .checkedKernelStride (DynUNet.check_kernel_stride s)
    fun evs _ =>
  withStep evs .builtSkipLayers
    (create_skips 0 (input_block :: downsamples) upsamples.reverse bottleneck
      deep_supervision_heads)
    fun evs skip_layers =>
  (evs, .ok
    { filters := filters
      input_block := input_block
      downsamples := downsamples
      bottleneck := bottleneck
      upsamples := upsamples
      cls_output_block := cls_output_block
      seg_output_block := seg_output_block
      deep_supr_num := s.deep_supr_num
      heads_init := List.replicate s.deep_supr_num.toNat Tensor.placeholder
      deep_supervision_heads := deep_supervision_heads
      skip_layers := skip_layers })

/-- The outcome of `DynUNet.__init__`: the constructed network, or the error it
raised. -/
def DynUNet.init (s : Spec) : Except InitError Network :=
  (DynUNet.initTraced s).2

/-- Whether an `Except` value is a success. -/
def isOkE {ε α : Type} : Except ε α → Bool
  | .ok _ => true
  | .error _ => false

/-- Python `heads[i] = v`: in-range assignment, `none` (an `IndexError`)
otherwise. -/
def setHead (heads : List Tensor) (i : Nat) (v : Tensor) : Option (List Tensor) :=
  if i < heads.length then some (heads.set i v) else none

/-- `DynUNetSkipLayer.forward` (lines 47-57), with the shared mutable `heads`
buffer threaded explicitly: returns `(bottleneck_out, up_out)` and the updated
buffer, or `none` if a buffer write is out of range. -/
def SkipNode.forward : SkipNode → Tensor → List Tensor →
    Option (Tensor × Tensor × List Tensor)
  | .leaf b, x, heads => some (.apply b x, .apply b x, heads)
  | .skip index down up next sh, x, heads =>
    let down_out := Tensor.apply down x
    match SkipNode.forward next down_out heads with
    | none => none
    | some (bottleneck_out, next_out, heads1) =>
      let up_out := Tensor.applyUp up next_out down_out
      match sh with
      | some h =>
        if 0 < index then
          match setHead heads1 (index - 1) (.apply h up_out) with
          | none => none
          | some heads2 => some (bottleneck_out, up_out, heads2)
        else some (bottleneck_out, up_out, heads1)
      | none => some (bottleneck_out, up_out, heads1)

/-- `DynUNet.forward` (lines 254-263): runs the skip chain, applies the
classification block to `bottleneck_out` and the segmentation block to
`up_out`; in training mode stacks the primary segmentation output with the
interpolated head-buffer contents along a new axis at position 1. -/
def Network.forward (n : Network) (training : Bool) (x : Tensor) :
    Option (Tensor × Tensor) :=
  match n.skip_layers.forward x n.heads_init with
  | none => none
  | some (bottleneck_out, up_out, heads) =>
    let cls_out := Tensor.apply n.cls_output_block bottleneck_out
    let seg_out := Tensor.apply n.seg_output_block up_out
    if training then
      some (cls_out, .stack 1 (seg_out :: heads.map fun fm => .interpolated fm seg_out))
    else some (cls_out, seg_out)

/-- Number of `DynUNetSkipLayer` nodes in the chain. -/
def SkipNode.skipCount : SkipNode → Nat
  | .leaf _ => 0
  | .skip _ _ _ next _ => next.skipCount + 1

/-- The bottommost `next_layer` link of the chain. -/
def SkipNode.bottom : SkipNode → SkipNode
  | .leaf b => .leaf b
  | .skip _ _ _ next _ => next.bottom

/-- The block at the terminating leaf of the chain. -/
def SkipNode.leafBlock : SkipNode → Block
  | .leaf b => b
  | .skip _ _ _ next _ => next.leafBlock

/-- The tensor reaching the leaf during descent: each level applies its
downsample block and passes the result down. -/
def SkipNode.descend : SkipNode → Tensor → Tensor
  | .leaf _, x => x
  | .skip _ down _ next _, x => next.descend (Tensor.apply down x)

/-- The `(index, super_head)` pairs of the chain, top down. -/
def SkipNode.superHeads : SkipNode → List (Nat × Option Block)
  | .leaf _ => []
  | .skip index _ _ next sh => (index, sh) :: next.superHeads

/-- The `(index, buffer slot)` head-buffer writes a forward pass performs, in
execution (ascent) order: a level writes slot `index - 1` exactly when it owns
a head and its index is positive, mirroring lines 54-55. -/
def SkipNode.forwardWrites : SkipNode → List (Nat × Nat)
  | .leaf _ => []
  | .skip index _ _ next sh =>
    next.forwardWrites ++
      (match sh with
       | some _ => if 0 < index then [(index, index - 1)] else []
       | none => [])

/-! ### Helper lemmas -/

theorem get?_isSome_of_lt {α : Type} (l : List α) (n : Nat) (h : n < l.length) :
    ∃ v, l.get? n = some v := by
  cases hv : l.get? n with
  | none => rw [List.get?_eq_none] at hv; omega
  | some v => exact ⟨v, rfl⟩

theorem pyGet?_some {α : Type} (l : List α) (i : Int)
    (h1 : -(l.length : Int) ≤ i) (h2 : i < l.length) : ∃ v, pyGet? l i = some v := by
  unfold pyGet?
  by_cases h0 : 0 ≤ i
  · simp only [h0, if_true]
    exact get?_isSome_of_lt l i.toNat (by omega)
  · have hneg : i + l.length ≥ 0 := by omega
    simp only [h0, if_false]
    rw [if_neg (by omega)]
    exact get?_isSome_of_lt l (i + l.length).toNat (by omega)

theorem zip4_length {α β γ δ : Type} :
    ∀ (a : List α) (b : List β) (c : List γ) (d : List δ),
    (zip4 a b c d).length = min (min (min a.length b.length) c.length) d.length
  | [], b, c, d => by cases b <;> cases c <;> cases d <;> simp [zip4]
  | _ :: _, [], c, d => by cases c <;> cases d <;> simp [zip4]
  | _ :: _, _ :: _, [], d => by cases d <;> simp [zip4]
  | _ :: _, _ :: _, _ :: _, [] => by simp [zip4]
  | a :: as, b :: bs, c :: cs, d :: ds => by
    have ih := zip4_length as bs cs ds
    show ((a, b, c, d) :: zip4 as bs cs ds).length = _
    simp only [List.length_cons, ih]
    omega

theorem zip5_length {α β γ δ ε : Type} :
    ∀ (a : List α) (b : List β) (c : List γ) (d : List δ) (e : List ε),
    (zip5 a b c d e).length =
      min (min (min (min a.length b.length) c.length) d.length) e.length
  | [], b, c, d, e => by cases b <;> cases c <;> cases d <;> cases e <;> simp [zip5]
  | _ :: _, [], c, d, e => by cases c <;> cases d <;> cases e <;> simp [zip5]
  | _ :: _, _ :: _, [], d, e => by cases d <;> cases e <;> simp [zip5]
  | _ :: _, _ :: _, _ :: _, [], e => by cases e <;> simp [zip5]
  | _ :: _, _ :: _, _ :: _, _ :: _, [] => by simp [zip5]
  | a :: as, b :: bs, c :: cs, d :: ds, e :: es => by
    have ih := zip5_length as bs cs ds es
    show ((a, b, c, d, e) :: zip5 as bs cs ds es).length = _
    simp only [List.length_cons, ih]
    omega

theorem mapMExcept_ok {α β : Type} (f : α → Except InitError β) :
    ∀ (l : List α), (∀ a ∈ l, ∃ b, f a = .ok b) →
    ∃ r, mapMExcept f l = .ok r ∧ r.length = l.length
  | [], _ => ⟨[], rfl, rfl⟩
  | a :: as, h => by
    obtain ⟨b, hb⟩ := h a (List.mem_cons_self a as)
    obtain ⟨r, hr, hlen⟩ := mapMExcept_ok f as (fun x hx => h x (List.mem_cons_of_mem a hx))
    exact ⟨b :: r, by simp [mapMExcept, hb, hr], by simp [hlen]⟩

theorem mapMExcept_error {α β : Type} (f : α → Except InitError β) :
    ∀ (l : List α) (e : InitError), mapMExcept f l = .error e →
    ∃ a ∈ l, f a = .error e
  | [], e, h => by simp [mapMExcept] at h
  | a :: as, e, h => by
    unfold mapMExcept at h
    cases hfa : f a with
    | error e2 =>
      rw [hfa] at h
      exact ⟨a, List.mem_cons_self a as, by simp at h; rw [hfa, h]⟩
    | ok b =>
      rw [hfa] at h
      cases hrest : mapMExcept f as with
      | error e2 =>
        rw [hrest] at h
        simp at h
        obtain ⟨x, hx, hfx⟩ := mapMExcept_error f as e2 hrest
        exact ⟨x, List.mem_cons_of_mem a hx, by rw [hfx, h]⟩
      | ok bs => rw [hrest] at h; simp at h

theorem withStep_ok {α β : Type} (acc : List Event) (ev : Event) (a : α)
    (k : List Event → α → List Event × Except InitError β) :
    withStep acc ev (.ok a) k = k (acc ++ [ev]) a := rfl

theorem withStep_error {α β : Type} (acc : List Event) (ev : Event) (e : InitError)
    (k : List Event → α → List Event × Except InitError β) :
    withStep acc ev (.error e) k = (acc, .error e) := rfl

theorem map_range_succ {γ : Type} (f : Nat → γ) (n : Nat) :
    (List.range (n + 1)).map f = f 0 :: (List.range n).map (fun k => f (k + 1)) := by
  rw [List.range_succ_eq_map, List.map_cons, List.map_map]
  rfl

theorem create_skips_cons (idx : Nat) (d u : Block) (ds us : List Block)
    (b : Block) (H : List Block) (h : ds.length = us.length) :
    create_skips idx (d :: ds) (u :: us) b H =
      (let popped : Option Block × List Block :=
        if 0 < idx ∧ 0 < H.length then (H.head?, H.tail) else (none, H)
       match create_skips (1 + idx) ds us b popped.2 with
       | .error e => .error e
       | .ok next_layer => .ok (.skip idx d u next_layer popped.1)) := by
  conv_lhs => unfold create_skips
  rw [if_neg (by simp only [List.length_cons]; omega)]

theorem create_skips_inner (b : Block) :
    ∀ (ds us H : List Block) (idx : Nat), 1 ≤ idx → ds.length = us.length →
    ∃ node, create_skips idx ds us b H = .ok node ∧
      node.skipCount = ds.length ∧
      node.bottom = .leaf b ∧
      node.superHeads = (List.range ds.length).map (fun k => (idx + k, H.get? k)) ∧
      node.forwardWrites =
        ((List.range (min H.length ds.length)).map
          (fun k => (idx + k, idx + k - 1))).reverse := by
  intro ds
  induction ds with
  | nil =>
    intro us H idx hidx hlen
    have hus : us = [] := List.length_eq_zero.mp hlen.symm
    subst hus
    refine ⟨.leaf b, by simp [create_skips], rfl, rfl, by simp [SkipNode.superHeads], ?_⟩
    simp [SkipNode.forwardWrites]
  | cons d ds2 ih =>
    intro us H idx hidx hlen
    cases us with
    | nil => simp at hlen
    | cons u us2 =>
      simp only [List.length_cons] at hlen
      have hlen2 : ds2.length = us2.length := by omega
      have hshift : ∀ k, 1 + idx + k = idx + (k + 1) := by omega
      cases H with
      | nil =>
        obtain ⟨node2, h2ok, h2cnt, h2bot, h2sh, h2fw⟩ :=
          ih us2 [] (1 + idx) (by omega) hlen2
        refine ⟨.skip idx d u node2 none, ?_, ?_, ?_, ?_, ?_⟩
        · rw [create_skips_cons idx d u ds2 us2 b [] hlen2]
          simp only [List.length_nil, lt_irrefl, and_false, if_false]
          rw [h2ok]
        · simp [SkipNode.skipCount, h2cnt]
        · simp [SkipNode.bottom, h2bot]
        · simp only [SkipNode.superHeads, h2sh, List.length_cons, map_range_succ,
            List.get?_nil, Nat.add_zero]
          simp only [hshift]
        · simp only [SkipNode.forwardWrites, h2fw, List.length_nil, Nat.zero_min,
            List.range_zero, List.map_nil, List.reverse_nil, List.append_nil]
      | cons hd t =>
        obtain ⟨node2, h2ok, h2cnt, h2bot, h2sh, h2fw⟩ :=
          ih us2 t (1 + idx) (by omega) hlen2
        refine ⟨.skip idx d u node2 (some hd), ?_, ?_, ?_, ?_, ?_⟩
        · rw [create_skips_cons idx d u ds2 us2 b (hd :: t) hlen2]
          simp only [List.length_cons, if_pos (by omega : 0 < idx ∧ 0 < t.length + 1),
            List.head?_cons, List.tail_cons]
          rw [h2ok]
        · simp [SkipNode.skipCount, h2cnt]
        · simp [SkipNode.bottom, h2bot]
        · simp only [SkipNode.superHeads, h2sh, List.length_cons, map_range_succ,
            List.get?_cons_zero, List.get?_cons_succ, Nat.add_zero]
          simp only [hshift]
        · simp only [SkipNode.forwardWrites, h2fw, List.length_cons,
            Nat.succ_min_succ, map_range_succ, Nat.add_zero, List.reverse_cons,
            if_pos (by omega : 0 < idx)]
          simp only [hshift]

theorem create_skips_zero (b : Block) (d u : Block) (ds2 us2 H : List Block)
    (hlen : ds2.length = us2.length) :
    ∃ node, create_skips 0 (d :: ds2) (u :: us2) b H = .ok node ∧
      node.skipCount = ds2.length + 1 ∧
      node.bottom = .leaf b ∧
      node.superHeads =
        (0, none) :: (List.range ds2.length).map (fun k => (1 + k, H.get? k)) ∧
      node.forwardWrites =
        ((List.range (min H.length ds2.length)).map (fun k => (1 + k, k))).reverse := by
  obtain ⟨node2, h2ok, h2cnt, h2bot, h2sh, h2fw⟩ :=
    create_skips_inner b ds2 us2 H 1 le_rfl hlen
  have hsub : ∀ k, 1 + k - 1 = k := by omega
  refine ⟨.skip 0 d u node2 none, ?_, ?_, ?_, ?_, ?_⟩
  · rw [create_skips_cons 0 d u ds2 us2 b H hlen]
    simp only [lt_irrefl, false_and, if_false]
    rw [h2ok]
  · simp [SkipNode.skipCount, h2cnt]
  · simp [SkipNode.bottom, h2bot]
  · simp [SkipNode.superHeads, h2sh]
  · simp only [SkipNode.forwardWrites, h2fw, List.append_nil]
    simp only [hsub]

theorem SkipNode.forward_total (node : SkipNode) :
    ∀ (x : Tensor) (heads : List Tensor),
    (∀ w ∈ node.forwardWrites, w.2 < heads.length) →
    ∃ b u h2, node.forward x heads = some (b, u, h2) ∧ h2.length = heads.length := by
  induction node with
  | leaf bb => exact fun x heads _ => ⟨_, _, heads, rfl, rfl⟩
  | skip index down up next sh ih =>
    intro x heads h
    have hnext : ∀ w ∈ next.forwardWrites, w.2 < heads.length := by
      intro w hw
      exact h w (by simp only [SkipNode.forwardWrites, List.mem_append]; exact Or.inl hw)
    obtain ⟨b0, n0, h1, hfw, hlen⟩ := ih (Tensor.apply down x) heads hnext
    cases sh with
    | none =>
      refine ⟨b0, .applyUp up n0 (.apply down x), h1, ?_, hlen⟩
      simp only [SkipNode.forward, hfw]
    | some hb =>
      by_cases hpos : 0 < index
      · have hwmem : (index, index - 1) ∈
            (SkipNode.skip index down up next (some hb)).forwardWrites := by
          simp [SkipNode.forwardWrites, hpos]
        have hbound : index - 1 < h1.length := by
          rw [hlen]; exact h _ hwmem
        refine ⟨b0, .applyUp up n0 (.apply down x),
          h1.set (index - 1) (.apply hb (.applyUp up n0 (.apply down x))), ?_, ?_⟩
        · simp only [SkipNode.forward, hfw, hpos, if_pos, setHead, if_pos hbound]
        · simp [hlen]
      · refine ⟨b0, .applyUp up n0 (.apply down x), h1, ?_, hlen⟩
        simp only [SkipNode.forward, hfw]
        rw [if_neg hpos]

/-- Spec-side shape condition for one kernel/stride entry: scalars are always
acceptable, tuples must have exactly `spatial_dims` components. -/
def paramLenOk (spatial_dims : Nat) : Param → Prop
  | .scalar _ => True
  | .vec l => l.length = spatial_dims

/-- Stated from the spec's words: kernel_size and strides have equal length at
least 3, and every non-scalar kernel or stride entry has exactly
`spatial_dims` components. -/
def kernelStrideSpecValid (s : Spec) : Prop :=
  s.kernel_size.length = s.strides.length ∧ 3 ≤ s.kernel_size.length ∧
    ∀ p ∈ s.kernel_size.zip s.strides,
      paramLenOk s.spatial_dims p.1 ∧ paramLenOk s.spatial_dims p.2

theorem check_kernel_stride_entries_ok (sd : Nat) :
    ∀ (l : List (Param × Param)) (idx : Nat),
    DynUNet.check_kernel_stride_entries sd idx l = .ok () ↔
      ∀ p ∈ l, paramLenOk sd p.1 ∧ paramLenOk sd p.2 := by
  intro l
  induction l with
  | nil => intro idx; simp [DynUNet.check_kernel_stride_entries]
  | cons p rest ih =>
    intro idx
    obtain ⟨k, st⟩ := p
    cases k with
    | scalar nk =>
      cases st with
      | scalar ns =>
        simp [DynUNet.check_kernel_stride_entries, paramLenOk, ih (idx + 1)]
      | vec ls =>
        by_cases h2 : ls.length = sd
        · simp [DynUNet.check_kernel_stride_entries, h2, paramLenOk, ih (idx + 1)]
        · simp [DynUNet.check_kernel_stride_entries, h2, paramLenOk]
    | vec lk =>
      by_cases h1 : lk.length = sd
      · cases st with
        | scalar ns =>
          simp [DynUNet.check_kernel_stride_entries, h1, paramLenOk, ih (idx + 1)]
        | vec ls =>
          by_cases h2 : ls.length = sd
          · simp [DynUNet.check_kernel_stride_entries, h1, h2, paramLenOk, ih (idx + 1)]
          · simp [DynUNet.check_kernel_stride_entries, h1, h2, paramLenOk]
      · cases st with
        | scalar ns =>
          simp [DynUNet.check_kernel_stride_entries, h1, paramLenOk]
        | vec ls =>
          simp [DynUNet.check_kernel_stride_entries, h1, paramLenOk]

theorem get_deep_supervision_heads_range_error (s : Spec) (filters : List Nat) :
    DynUNet.get_deep_supervision_heads s filters = .error .deepSupervisionRange ↔
      (s.strides.length : Int) - 1 ≤ s.deep_supr_num := by
  unfold DynUNet.get_deep_supervision_heads
  by_cases h : (s.strides.length : Int) - 1 ≤ s.deep_supr_num
  · simp [h]
  · simp only [h, if_false, iff_false]
    intro hmm
    obtain ⟨a, _, hfa⟩ := mapMExcept_error _ _ _ hmm
    unfold DynUNet.get_seg_output_block at hfa
    cases hpg : pyGet? filters ((a : Int) + 1) <;> rw [hpg] at hfa <;> simp at hfa

theorem DynUNet.init_ok (s : Spec)
    (hkl : s.kernel_size.length = s.strides.length)
    (hk3 : 3 ≤ s.strides.length)
    (hcf : s.strides.length ≤ (filtersOf s).length)
    (hop : s.strides.length - 1 ≤ s.output_paddings.length)
    (hd1 : s.deep_supr_num < (s.strides.length : Int) - 1)
    (hcks : DynUNet.check_kernel_stride s = .ok ()) :
    ∃ n, DynUNet.init s = .ok n ∧
      n.downsamples.length = s.strides.length - 2 ∧
      n.upsamples.length = s.strides.length - 1 ∧
      n.heads_init.length = s.deep_supr_num.toNat ∧
      n.deep_supervision_heads.length = s.deep_supr_num.toNat ∧
      n.skip_layers.skipCount = s.strides.length - 1 ∧
      n.skip_layers.bottom = SkipNode.leaf n.bottleneck ∧
      n.skip_layers.superHeads =
        (0, none) :: (List.range (s.strides.length - 2)).map
          (fun k => (1 + k, n.deep_supervision_heads.get? k)) ∧
      n.skip_layers.forwardWrites =
        ((List.range s.deep_supr_num.toNat).map (fun k => (1 + k, k))).reverse := by
  set L := s.strides.length with hL
  set F := (filtersOf s).take L with hFdef
  have hFlen : F.length = L := by
    rw [hFdef, List.length_take]; omega
  have e1 : DynUNet.check_filters (filtersOf s) s.strides = .ok F := by
    unfold DynUNet.check_filters
    rw [if_neg (by omega)]
  obtain ⟨f0, hf0⟩ := pyGet?_some F 0 (by omega) (by rw [hFlen]; exact_mod_cast by omega)
  obtain ⟨k0, hk0⟩ := pyGet?_some s.kernel_size 0 (by omega)
    (by rw [hkl]; exact_mod_cast by omega)
  obtain ⟨st0, hst0⟩ := pyGet?_some s.strides 0 (by omega) (by exact_mod_cast by omega)
  have e2 : DynUNet.get_input_block s F =
      .ok (.conv s.res_block s.spatial_dims s.in_channels f0 k0 st0) := by
    unfold DynUNet.get_input_block
    rw [hf0, hk0, hst0]
  obtain ⟨fm2, hfm2⟩ := pyGet?_some F (-2) (by rw [hFlen]; omega) (by rw [hFlen]; omega)
  obtain ⟨fm1, hfm1⟩ := pyGet?_some F (-1) (by rw [hFlen]; omega) (by rw [hFlen]; omega)
  obtain ⟨km1, hkm1⟩ := pyGet?_some s.kernel_size (-1) (by rw [hkl]; omega)
    (by rw [hkl]; omega)
  obtain ⟨sm1, hsm1⟩ := pyGet?_some s.strides (-1) (by omega) (by omega)
  have e3 : DynUNet.get_bottleneck s F =
      .ok (.conv s.res_block s.spatial_dims fm2 fm1 km1 sm1) := by
    unfold DynUNet.get_bottleneck
    rw [hfm2, hfm1, hkm1, hsm1]
  have e4 : DynUNet.get_cls_output_block s F (-1) =
      .ok (.clsOut s.spatial_dims fm1 s.cls_out_channels s.pool_type s.pool_fmap) := by
    unfold DynUNet.get_cls_output_block
    rw [hfm1]
  have e5 : DynUNet.get_seg_output_block s F 0 =
      .ok (.segOut s.spatial_dims f0 s.seg_out_channels) := by
    unfold DynUNet.get_seg_output_block
    rw [hf0]
  have hdsn : s.deep_supr_num.toNat ≤ L - 2 := by omega
  obtain ⟨dsh, e6, hdshlen⟩ :=
    mapMExcept_ok (fun (i : Nat) => DynUNet.get_seg_output_block s F ((i : Int) + 1))
      (List.range s.deep_supr_num.toNat)
      (by
        intro i hi
        rw [List.mem_range] at hi
        obtain ⟨fi, hfi⟩ := pyGet?_some F ((i : Int) + 1) (by omega)
          (by rw [hFlen]; omega)
        refine ⟨.segOut s.spatial_dims fi s.seg_out_channels, ?_⟩
        show DynUNet.get_seg_output_block s F ((i : Int) + 1) = _
        unfold DynUNet.get_seg_output_block
        rw [hfi])
  rw [List.length_range] at hdshlen
  have e6' : DynUNet.get_deep_supervision_heads s F = .ok dsh := by
    unfold DynUNet.get_deep_supervision_heads
    rw [if_neg (by omega)]
    exact e6
  have downsLen : (DynUNet.get_downsamples s F).length = L - 2 := by
    simp only [DynUNet.get_downsamples, List.length_map, zip4_length,
      List.length_take, List.length_drop, hFlen, ← hkl, ← hL]
    omega
  have upsLen : (DynUNet.get_upsamples s F).length = L - 1 := by
    simp only [DynUNet.get_upsamples, List.length_map, zip5_length,
      List.length_take, List.length_drop, List.length_reverse, hFlen, ← hkl, ← hL]
    omega
  have hrevLen : (DynUNet.get_upsamples s F).reverse.length = L - 1 := by
    rw [List.length_reverse]; exact upsLen
  obtain ⟨u0, us2, hur⟩ : ∃ u0 us2, (DynUNet.get_upsamples s F).reverse = u0 :: us2 := by
    cases hcase : (DynUNet.get_upsamples s F).reverse with
    | nil => rw [hcase] at hrevLen; simp at hrevLen; omega
    | cons u0 us2 => exact ⟨u0, us2, rfl⟩
  have hus2len : us2.length = L - 2 := by
    have := hrevLen
    rw [hur] at this
    simp at this
    omega
  obtain ⟨node, hnode, hcnt, hbot, hsh, hfw⟩ :=
    create_skips_zero (.conv s.res_block s.spatial_dims fm2 fm1 km1 sm1)
      (.conv s.res_block s.spatial_dims s.in_channels f0 k0 st0) u0
      (DynUNet.get_downsamples s F) us2 dsh (by rw [downsLen, hus2len])
  have e8 : create_skips 0
      ((Block.conv s.res_block s.spatial_dims s.in_channels f0 k0 st0) ::
        DynUNet.get_downsamples s F)
      (DynUNet.get_upsamples s F).reverse
      (.conv s.res_block s.spatial_dims fm2 fm1 km1 sm1) dsh = .ok node := by
    rw [hur]; exact hnode
  have hinit : DynUNet.init s = .ok
      { filters := F
        input_block := .conv s.res_block s.spatial_dims s.in_channels f0 k0 st0
        downsamples := DynUNet.get_downsamples s F
        bottleneck := .conv s.res_block s.spatial_dims fm2 fm1 km1 sm1
        upsamples := DynUNet.get_upsamples s F
        cls_output_block := .clsOut s.spatial_dims fm1 s.cls_out_channels
          s.pool_type s.pool_fmap
        seg_output_block := .segOut s.spatial_dims f0 s.seg_out_channels
        deep_supr_num := s.deep_supr_num
        heads_init := List.replicate s.deep_supr_num.toNat Tensor.placeholder
        deep_supervision_heads := dsh
        skip_layers := node } := by
    unfold DynUNet.init DynUNet.initTraced
    simp only [e1, e2, e3, e4, e5, e6', hcks, e8, withStep_ok]
  refine ⟨_, hinit, downsLen, upsLen, by simp, hdshlen, ?_, ?_, ?_, ?_⟩
  · show node.skipCount = L - 1
    rw [hcnt, downsLen]; omega
  · exact hbot
  · show node.superHeads = _
    rw [hsh, downsLen]
  · show node.forwardWrites = _
    have hmin : dsh.length ⊓ (DynUNet.get_downsamples s F).length =
        s.deep_supr_num.toNat := by
      rw [hdshlen, downsLen]; omega
    rw [hfw, hmin]

/-- A representative valid constructor input: four stages, 3-D, auto-derived
filters, two deep-supervision heads. -/
def validSpec : Spec :=
  { spatial_dims := 3
    in_channels := 1
    cls_out_channels := 2
    seg_out_channels := 3
    kernel_size := [.scalar 3, .scalar 3, .scalar 3, .scalar 3]
    strides := [.scalar 1, .scalar 2, .scalar 2, .scalar 2]
    output_paddings := [.scalar 1, .scalar 1, .scalar 1]
    filters := none
    deep_supr_num := 2
    res_block := false
    trans_bias := false
    pool_type := "max"
    pool_fmap := 2 }

/-- A constructor input identical in kind to `validSpec` but with
`deep_supr_num = 0`. -/
def zeroSuprSpec : Spec :=
  { spatial_dims := 3
    in_channels := 1
    cls_out_channels := 2
    seg_out_channels := 2
    kernel_size := [.scalar 3, .scalar 3, .scalar 3]
    strides := [.scalar 1, .scalar 2, .scalar 2]
    output_paddings := [.scalar 1, .scalar 1]
    filters := none
    deep_supr_num := 0
    res_block := false
    trans_bias := false
    pool_type := "max"
    pool_fmap := 2 }

/-- A constructor input whose only defect is a 2-component kernel tuple at
stage 1 with `spatial_dims = 3`: every length-based check passes, but the
kernel/stride shape check must reject it. -/
def badKernelSpec : Spec :=
  { spatial_dims := 3
    in_channels := 1
    cls_out_channels := 2
    seg_out_channels := 2
    kernel_size := [.scalar 3, .vec [3, 3], .scalar 3]
    strides := [.scalar 1, .scalar 2, .scalar 2]
    output_paddings := [.scalar 1, .scalar 1]
    filters := none
    deep_supr_num := 1
    res_block := false
    trans_bias := false
    pool_type := "max"
    pool_fmap := 2 }

/-- A constructor input passing every validation check in the code (kernel and
stride lengths and shapes, filters, deep-supervision range), but with
`output_paddings` one entry short of `len(strides) - 1`. -/
def shortPaddingSpec : Spec :=
  { spatial_dims := 3
    in_channels := 1
    cls_out_channels := 2
    seg_out_channels := 2
    kernel_size := [.scalar 3, .scalar 3, .scalar 3]
    strides := [.scalar 1, .scalar 2, .scalar 2]
    output_paddings := [.scalar 1]
    filters := none
    deep_supr_num := 1
    res_block := false
    trans_bias := false
    pool_type := "max"
    pool_fmap := 2 }

theorem get?_isSome_iff {α : Type} (l : List α) (n : Nat) :
    (l.get? n).isSome ↔ n < l.length := by
  constructor
  · intro hs
    by_contra hn
    rw [not_lt] at hn
    rw [List.get?_eq_none.mpr hn] at hs
    simp at hs
  · intro hlt
    obtain ⟨v, hv⟩ := get?_isSome_of_lt l n hlt
    rw [hv]
    rfl

/-- C7: when the `filters` argument is not supplied, the derived per-stage
filter counts are `filters[i] = min(2^(5+i), cap)` for `i` in
`0..len(strides)-1`, where the cap is 320 for `spatial_dims = 3` and 512
otherwise; in particular for `spatial_dims = 3` and four strides the derived
filters are `[32, 64, 128, 256]`. -/
theorem derived_filters_formula :
    (∀ (s : Spec), s.filters = none →
      filtersOf s = deriveFilters s.spatial_dims s.strides.length) ∧
    (∀ (spatial_dims numStrides i : Nat), i < numStrides →
      (deriveFilters spatial_dims numStrides).get? i =
        some (min (2 ^ (5 + i)) (if spatial_dims = 3 then 320 else 512))) ∧
    deriveFilters 3 4 = [32, 64, 128, 256] := by
  refine ⟨?_, ?_, by decide⟩
  · intro s h
    unfold filtersOf
    rw [h]
  · intro sd nstr i hi
    unfold deriveFilters
    rw [List.get?_map, List.get?_range hi]
    rfl

/-- C7 witness: the general formula applied at `validSpec` (filters unset) and
at index 2 of the four-stride 3-D derivation. -/
theorem derived_filters_formula_w :
    validSpec.filters = none ∧
    filtersOf validSpec = deriveFilters 3 4 ∧
    2 < 4 ∧
    (deriveFilters 3 4).get? 2 = some (min (2 ^ (5 + 2)) (if 3 = 3 then 320 else 512)) := by
  refine ⟨rfl, ?_, by omega, derived_filters_formula.2.1 3 4 2 (by omega)⟩
  exact derived_filters_formula.1 validSpec rfl

/-- C8: the kernel/stride validation accepts exactly the inputs with
`len(kernel_size) == len(strides) >= 3` in which every non-scalar kernel or
stride entry has exactly `spatial_dims` components (scalar entries are never
rejected). -/
theorem kernel_stride_check_iff (s : Spec) :
    DynUNet.check_kernel_stride s = .ok () ↔ kernelStrideSpecValid s := by
  unfold DynUNet.check_kernel_stride kernelStrideSpecValid
  by_cases h : s.kernel_size.length ≠ s.strides.length ∨ s.kernel_size.length < 3
  · rw [if_pos h]
    constructor
    · intro hc
      exact Except.noConfusion hc
    · rintro ⟨h1, h2, -⟩
      exfalso
      omega
  · rw [if_neg h]
    push_neg at h
    rw [check_kernel_stride_entries_ok]
    exact ⟨fun hall => ⟨h.1, by omega, hall⟩, fun hc => hc.2.2⟩

/-- C4 (amended): `get_deep_supervision_heads` raises the deep-supervision
range error exactly when `deep_supr_num >= len(strides) - 1`; the code has no
check for `deep_supr_num <= 0`, and such values are accepted. -/
theorem deep_supr_range_check_iff (s : Spec) (filters : List Nat) :
    DynUNet.get_deep_supervision_heads s filters = .error .deepSupervisionRange ↔
      (s.strides.length : Int) - 1 ≤ s.deep_supr_num :=
  get_deep_supervision_heads_range_error s filters

/-- C4 counterexample: `zeroSuprSpec` has `deep_supr_num = 0 <= 0`, yet
construction succeeds, refuting "for every input with deep_supr_num <= 0,
construction fails". -/
theorem deep_supr_nonpositive_accepted_cx :
    zeroSuprSpec.deep_supr_num ≤ 0 ∧ isOkE (DynUNet.init zeroSuprSpec) = true :=
  ⟨by decide, rfl⟩

/-- C5 (amended): for every spec passing the code's validation checks and
additionally supplying at least `len(strides) - 1` output paddings (a length
the code itself never validates), the skip-layer composer's StructureMismatch
error is unreachable. -/
theorem structure_mismatch_unreachable (s : Spec)
    (hkl : s.kernel_size.length = s.strides.length)
    (hk3 : 3 ≤ s.strides.length)
    (hcf : s.strides.length ≤ (filtersOf s).length)
    (hop : s.strides.length - 1 ≤ s.output_paddings.length)
    (hd1 : s.deep_supr_num < (s.strides.length : Int) - 1)
    (hcks : DynUNet.check_kernel_stride s = .ok ()) :
    ∀ nDown nUp, DynUNet.init s ≠ .error (.structureMismatch nDown nUp) := by
  obtain ⟨n, hn, -, -, -, -, -, -, -, -⟩ :=
    DynUNet.init_ok s hkl hk3 hcf hop hd1 hcks
  intro a b hc
  rw [hn] at hc
  exact Except.noConfusion hc

/-- C5 witness: the unreachability theorem applied to `validSpec`. -/
theorem structure_mismatch_unreachable_w :
    DynUNet.init validSpec ≠ .error (.structureMismatch 3 2) :=
  structure_mismatch_unreachable validSpec rfl (by decide) (by decide) (by decide)
    (by decide) rfl 3 2

/-- C5 counterexample: `shortPaddingSpec` passes every validation check in the
code (kernel/stride lengths and shapes, filters, deep-supervision range), yet
composition raises StructureMismatch because its `output_paddings` list is one
entry short, so the claim as stated is false. -/
theorem structure_mismatch_reachable_cx :
    DynUNet.check_kernel_stride shortPaddingSpec = .ok () ∧
    (∃ f, DynUNet.check_filters (filtersOf shortPaddingSpec)
      shortPaddingSpec.strides = .ok f) ∧
    0 < shortPaddingSpec.deep_supr_num ∧
    shortPaddingSpec.deep_supr_num < (shortPaddingSpec.strides.length : Int) - 1 ∧
    DynUNet.init shortPaddingSpec = .error (.structureMismatch 2 1) :=
  ⟨rfl, ⟨[32, 64, 128], rfl⟩, by decide, by decide, rfl⟩

/-- C3 (amended): construction is atomic in outcome — whenever any validation
check fails the constructor raises and no instance is produced, so a
successfully constructed network has passed the filters check, the
kernel/stride check and the deep-supervision range check; however the checks
do not all precede stage construction: the completed-step trace of a
successful construction shows the kernel/stride check running after every
stage block (and the deep-supervision range check after the
input/downsample/bottleneck/upsample blocks), with only the filters check
preceding block construction. -/
theorem checks_gate_construction (s : Spec) (n : Network)
    (h : DynUNet.init s = .ok n) :
    (∃ f, DynUNet.check_filters (filtersOf s) s.strides = .ok f) ∧
    DynUNet.check_kernel_stride s = .ok () ∧
    DynUNet.get_deep_supervision_heads s n.filters = .ok n.deep_supervision_heads ∧
    (DynUNet.initTraced s).1 =
      [.checkedFilters, .builtInputBlock, .builtDownsamples, .builtBottleneck,
       .builtUpsamples, .builtClsOutputBlock, .builtSegOutputBlock,
       .builtDeepSupervisionHeads, .checkedKernelStride, .builtSkipLayers] := by
  unfold DynUNet.init at h
  unfold DynUNet.initTraced at h ⊢
  cases h1 : DynUNet.check_filters (filtersOf s) s.strides with
  | error e => rw [h1, withStep_error] at h; simp at h
  | ok F =>
  simp only [h1, withStep_ok] at h
  cases h2 : DynUNet.get_input_block s F with
  | error e => rw [h2] at h; rw [withStep_error] at h; simp at h
  | ok ib =>
  simp only [h2, withStep_ok] at h
  cases h3 : DynUNet.get_bottleneck s F with
  | error e => rw [h3] at h; rw [withStep_error] at h; simp at h
  | ok bn =>
  simp only [h3, withStep_ok] at h
  cases h4 : DynUNet.get_cls_output_block s F (-1) with
  | error e => rw [h4] at h; rw [withStep_error] at h; simp at h
  | ok cb =>
  simp only [h4, withStep_ok] at h
  cases h5 : DynUNet.get_seg_output_block s F 0 with
  | error e => rw [h5] at h; rw [withStep_error] at h; simp at h
  | ok sb =>
  simp only [h5, withStep_ok] at h
  cases h6 : DynUNet.get_deep_supervision_heads s F with
  | error e => rw [h6] at h; rw [withStep_error] at h; simp at h
  | ok dsh =>
  simp only [h6, withStep_ok] at h
  cases h7 : DynUNet.check_kernel_stride s with
  | error e => rw [h7] at h; rw [withStep_error] at h; simp at h
  | ok u =>
  obtain ⟨⟩ := u
  simp only [h7, withStep_ok] at h
  cases h8 : create_skips 0 (ib :: DynUNet.get_downsamples s F)
      (DynUNet.get_upsamples s F).reverse bn dsh with
  | error e => rw [h8] at h; rw [withStep_error] at h; simp at h
  | ok node =>
  simp only [h8, withStep_ok] at h
  simp only [Except.ok.injEq] at h
  subst h
  refine ⟨⟨F, rfl⟩, rfl, h6, ?_⟩
  simp only [h1, h2, h3, h4, h5, h6, h7, h8, withStep_ok]
  rfl

/-- C3 witness: the gating theorem applied to the successfully constructed
`validSpec` network. -/
theorem checks_gate_construction_w :
    DynUNet.check_kernel_stride validSpec = .ok () ∧
    (DynUNet.initTraced validSpec).1.head? = some Event.checkedFilters := by
  cases hinit : DynUNet.init validSpec with
  | error e =>
    have hok : isOkE (DynUNet.init validSpec) = true := rfl
    rw [hinit] at hok
    simp [isOkE] at hok
  | ok n =>
    obtain ⟨-, h2, -, h4⟩ := checks_gate_construction validSpec n hinit
    exact ⟨h2, by rw [h4]; rfl⟩

/-- C3 counterexample: `badKernelSpec` fails only the kernel/stride shape
check, yet by the time the constructor raises, the input block, downsample
blocks, bottleneck, upsample blocks, output blocks and deep-supervision heads
have all been instantiated — refuting "the constructor raises before any block
has been instantiated". -/
theorem checks_after_blocks_cx :
    isOkE (DynUNet.init badKernelSpec) = false ∧
    (DynUNet.initTraced badKernelSpec).2 = .error (.kernelShapeError 1) ∧
    Event.builtInputBlock ∈ (DynUNet.initTraced badKernelSpec).1 ∧
    Event.builtBottleneck ∈ (DynUNet.initTraced badKernelSpec).1 ∧
    Event.builtUpsamples ∈ (DynUNet.initTraced badKernelSpec).1 := by
  refine ⟨rfl, rfl, ?_, ?_, ?_⟩ <;> decide

/-- C1: for every spec passing construction-time validation
(`len(kernel_size) == len(strides) >= 3`, enough filters,
`0 < deep_supr_num < len(strides)-1`, `len(output_paddings) == len(strides)-1`,
per-stage shapes valid), construction succeeds with exactly
`len(strides) - 2` downsample blocks and `len(strides) - 1` upsample blocks,
and the composed chain has exactly `len(strides) - 1` SkipLayer nodes whose
bottommost next link is the bottleneck stage as a leaf, never a SkipLayer. -/
theorem dynunet_block_counts (s : Spec)
    (hkl : s.kernel_size.length = s.strides.length)
    (hk3 : 3 ≤ s.strides.length)
    (hcf : s.strides.length ≤ (filtersOf s).length)
    (hop : s.output_paddings.length = s.strides.length - 1)
    (hd0 : 0 < s.deep_supr_num)
    (hd1 : s.deep_supr_num < (s.strides.length : Int) - 1)
    (hcks : DynUNet.check_kernel_stride s = .ok ()) :
    ∃ n, DynUNet.init s = .ok n ∧
      n.downsamples.length = s.strides.length - 2 ∧
      n.upsamples.length = s.strides.length - 1 ∧
      n.skip_layers.skipCount = s.strides.length - 1 ∧
      n.skip_layers.bottom = SkipNode.leaf n.bottleneck := by
  obtain ⟨n, h1, h2, h3, -, -, h6, h7, -, -⟩ :=
    DynUNet.init_ok s hkl hk3 hcf (by omega) hd1 hcks
  exact ⟨n, h1, h2, h3, h6, h7⟩

/-- C1 witness: the structural counts at `validSpec` (four strides). -/
theorem dynunet_block_counts_w :
    0 < validSpec.deep_supr_num ∧
    ∃ n, DynUNet.init validSpec = .ok n ∧
      n.downsamples.length = 2 ∧
      n.upsamples.length = 3 ∧
      n.skip_layers.skipCount = 3 ∧
      n.skip_layers.bottom = SkipNode.leaf n.bottleneck := by
  refine ⟨by decide, ?_⟩
  exact dynunet_block_counts validSpec rfl (by decide) (by decide) (by decide)
    (by decide) (by decide) rfl

/-- C2: for every validly constructed network, the head buffer has length
exactly `deep_supr_num`; the outermost SkipLayer (index 0) carries no
supervision head, levels `1..deep_supr_num` carry the heads in ascending level
order (level `1+k` holds head `k`), deeper levels carry none; and the forward
pass writes of level `index` target buffer slot `index - 1`, so slot 0 always
corresponds to level 1, never level 0. -/
theorem dynunet_head_attachment (s : Spec)
    (hkl : s.kernel_size.length = s.strides.length)
    (hk3 : 3 ≤ s.strides.length)
    (hcf : s.strides.length ≤ (filtersOf s).length)
    (hop : s.output_paddings.length = s.strides.length - 1)
    (hd0 : 0 < s.deep_supr_num)
    (hd1 : s.deep_supr_num < (s.strides.length : Int) - 1)
    (hcks : DynUNet.check_kernel_stride s = .ok ()) :
    ∃ n, DynUNet.init s = .ok n ∧
      n.heads_init.length = s.deep_supr_num.toNat ∧
      n.deep_supervision_heads.length = s.deep_supr_num.toNat ∧
      n.skip_layers.superHeads =
        (0, none) :: (List.range (s.strides.length - 2)).map
          (fun k => (1 + k, n.deep_supervision_heads.get? k)) ∧
      (∀ p ∈ n.skip_layers.superHeads,
        p.2.isSome ↔ 1 ≤ p.1 ∧ (p.1 : Int) ≤ s.deep_supr_num) ∧
      n.skip_layers.forwardWrites =
        ((List.range s.deep_supr_num.toNat).map (fun k => (1 + k, k))).reverse := by
  obtain ⟨n, h1, -, -, h4, h5, -, -, h8, h9⟩ :=
    DynUNet.init_ok s hkl hk3 hcf (by omega) hd1 hcks
  refine ⟨n, h1, h4, h5, h8, ?_, h9⟩
  intro p hp
  rw [h8] at hp
  rcases List.mem_cons.mp hp with hp0 | hpk
  · subst hp0
    simp
  · rw [List.mem_map] at hpk
    obtain ⟨k, hk, rfl⟩ := hpk
    rw [List.mem_range] at hk
    simp only [get?_isSome_iff, h5]
    omega

/-- C2 witness: head attachment at `validSpec` (`deep_supr_num = 2`,
four strides). -/
theorem dynunet_head_attachment_w :
    ∃ n, DynUNet.init validSpec = .ok n ∧
      n.heads_init.length = 2 ∧
      n.deep_supervision_heads.length = 2 ∧
      n.skip_layers.superHeads =
        (0, none) :: (List.range 2).map
          (fun k => (1 + k, n.deep_supervision_heads.get? k)) ∧
      (∀ p ∈ n.skip_layers.superHeads,
        p.2.isSome ↔ 1 ≤ p.1 ∧ (p.1 : Int) ≤ 2) ∧
      n.skip_layers.forwardWrites =
        ((List.range 2).map (fun k => (1 + k, k))).reverse :=
  dynunet_head_attachment validSpec rfl (by decide) (by decide) (by decide)
    (by decide) (by decide) rfl

/-- C10: in every forward pass of a validly constructed network, every write
to the shared head buffer is in bounds — evaluation never hits the
out-of-range case, and the buffer keeps its length `deep_supr_num`. -/
theorem head_writes_in_bounds (s : Spec)
    (hkl : s.kernel_size.length = s.strides.length)
    (hk3 : 3 ≤ s.strides.length)
    (hcf : s.strides.length ≤ (filtersOf s).length)
    (hop : s.output_paddings.length = s.strides.length - 1)
    (hd0 : 0 < s.deep_supr_num)
    (hd1 : s.deep_supr_num < (s.strides.length : Int) - 1)
    (hcks : DynUNet.check_kernel_stride s = .ok ()) :
    ∃ n, DynUNet.init s = .ok n ∧
      ∀ x, ∃ b u h2, n.skip_layers.forward x n.heads_init = some (b, u, h2) ∧
        h2.length = s.deep_supr_num.toNat := by
  obtain ⟨n, h1, -, -, hheads, -, -, -, -, hfw⟩ :=
    DynUNet.init_ok s hkl hk3 hcf (by omega) hd1 hcks
  refine ⟨n, h1, fun x => ?_⟩
  have hb : ∀ w ∈ n.skip_layers.forwardWrites, w.2 < n.heads_init.length := by
    intro w hw
    rw [hfw, List.mem_reverse, List.mem_map] at hw
    obtain ⟨k, hk, rfl⟩ := hw
    rw [List.mem_range] at hk
    rw [hheads]
    exact hk
  obtain ⟨b, u, h2, hf, hlen⟩ := SkipNode.forward_total n.skip_layers x n.heads_init hb
  exact ⟨b, u, h2, hf, by rw [hlen, hheads]⟩

/-- C10 witness: bounded writes at `validSpec` on the symbolic input. -/
theorem head_writes_in_bounds_w :
    ∃ n, DynUNet.init validSpec = .ok n ∧
      ∀ x, ∃ b u h2, n.skip_layers.forward x n.heads_init = some (b, u, h2) ∧
        h2.length = 2 :=
  head_writes_in_bounds validSpec rfl (by decide) (by decide) (by decide)
    (by decide) (by decide) rfl

/-- C6: in training mode, forward returns the segmentation output as a single
tensor stacked along a new axis at position 1, holding the primary
segmentation output first and then each of the `deep_supr_num` buffered head
tensors in index order, each interpolated to the primary output's spatial
shape — `1 + deep_supr_num` slices in all; in evaluation mode the plain
unstacked primary segmentation output is returned. -/
theorem training_stacking (s : Spec)
    (hkl : s.kernel_size.length = s.strides.length)
    (hk3 : 3 ≤ s.strides.length)
    (hcf : s.strides.length ≤ (filtersOf s).length)
    (hop : s.output_paddings.length = s.strides.length - 1)
    (hd0 : 0 < s.deep_supr_num)
    (hd1 : s.deep_supr_num < (s.strides.length : Int) - 1)
    (hcks : DynUNet.check_kernel_stride s = .ok ()) :
    ∃ n, DynUNet.init s = .ok n ∧
      ∀ x, ∃ b u h2,
        n.skip_layers.forward x n.heads_init = some (b, u, h2) ∧
        h2.length = s.deep_supr_num.toNat ∧
        n.forward true x = some (Tensor.apply n.cls_output_block b,
          Tensor.stack 1 (Tensor.apply n.seg_output_block u ::
            h2.map fun fm => Tensor.interpolated fm
              (Tensor.apply n.seg_output_block u))) ∧
        (Tensor.apply n.seg_output_block u ::
          h2.map fun fm => Tensor.interpolated fm
            (Tensor.apply n.seg_output_block u)).length
          = 1 + s.deep_supr_num.toNat ∧
        n.forward false x = some (Tensor.apply n.cls_output_block b,
          Tensor.apply n.seg_output_block u) := by
  obtain ⟨n, h1, -, -, hheads, -, -, -, -, hfw⟩ :=
    DynUNet.init_ok s hkl hk3 hcf (by omega) hd1 hcks
  refine ⟨n, h1, fun x => ?_⟩
  have hb : ∀ w ∈ n.skip_layers.forwardWrites, w.2 < n.heads_init.length := by
    intro w hw
    rw [hfw, List.mem_reverse, List.mem_map] at hw
    obtain ⟨k, hk, rfl⟩ := hw
    rw [List.mem_range] at hk
    rw [hheads]
    exact hk
  obtain ⟨b, u, h2, hf, hlen⟩ := SkipNode.forward_total n.skip_layers x n.heads_init hb
  refine ⟨b, u, h2, hf, by rw [hlen, hheads], ?_, ?_, ?_⟩
  · simp only [Network.forward, hf, if_true]
  · simp only [List.length_cons, List.length_map]
    rw [hlen, hheads]
    omega
  · simp only [Network.forward, hf, Bool.false_eq_true, if_false]

/-- C6 witness: training-mode stacking at `validSpec` on the symbolic input. -/
theorem training_stacking_w :
    ∃ n, DynUNet.init validSpec = .ok n ∧
      ∀ x, ∃ b u h2,
        n.skip_layers.forward x n.heads_init = some (b, u, h2) ∧
        h2.length = 2 ∧
        n.forward true x = some (Tensor.apply n.cls_output_block b,
          Tensor.stack 1 (Tensor.apply n.seg_output_block u ::
            h2.map fun fm => Tensor.interpolated fm
              (Tensor.apply n.seg_output_block u))) ∧
        (Tensor.apply n.seg_output_block u ::
          h2.map fun fm => Tensor.interpolated fm
            (Tensor.apply n.seg_output_block u)).length = 3 ∧
        n.forward false x = some (Tensor.apply n.cls_output_block b,
          Tensor.apply n.seg_output_block u) :=
  training_stacking validSpec rfl (by decide) (by decide) (by decide)
    (by decide) (by decide) rfl

/-- C9: during forward evaluation the bottleneck output produced at the leaf
is returned unchanged through every SkipLayer level as the first tuple
component — it always equals the leaf block applied to the fully descended
input — and the top-level pair `(bottleneck_out, up_out)` feeds the
classification block applied to `bottleneck_out` and the primary segmentation
block applied to `up_out`. -/
theorem bottleneck_passthrough :
    (∀ (node : SkipNode) (x : Tensor) (heads : List Tensor) (b u : Tensor)
      (h2 : List Tensor),
      node.forward x heads = some (b, u, h2) →
      b = Tensor.apply node.leafBlock (node.descend x)) ∧
    (∀ (n : Network) (x : Tensor) (b u : Tensor) (h2 : List Tensor),
      n.skip_layers.forward x n.heads_init = some (b, u, h2) →
      n.forward false x = some (Tensor.apply n.cls_output_block b,
        Tensor.apply n.seg_output_block u) ∧
      n.forward true x = some (Tensor.apply n.cls_output_block b,
        Tensor.stack 1 (Tensor.apply n.seg_output_block u ::
          h2.map fun fm => Tensor.interpolated fm
            (Tensor.apply n.seg_output_block u)))) := by
  constructor
  · intro node
    induction node with
    | leaf bb =>
      intro x heads b u h2 h
      simp only [SkipNode.forward, Option.some.injEq, Prod.mk.injEq] at h
      rw [← h.1]
      rfl
    | skip index down up next sh ih =>
      intro x heads b u h2 h
      cases hh : SkipNode.forward next (Tensor.apply down x) heads with
      | none =>
        simp only [SkipNode.forward, hh] at h
        exact Option.noConfusion h
      | some r =>
        obtain ⟨b0, n0, h1⟩ := r
        have hb0 : b = b0 := by
          cases sh with
          | none =>
            simp only [SkipNode.forward, hh, Option.some.injEq, Prod.mk.injEq] at h
            exact h.1.symm
          | some hb =>
            simp only [SkipNode.forward, hh] at h
            by_cases hpos : 0 < index
            · rw [if_pos hpos] at h
              cases hset : setHead h1 (index - 1)
                  (.apply hb (.applyUp up n0 (.apply down x))) with
              | none => rw [hset] at h; simp at h
              | some heads2 =>
                rw [hset] at h
                simp only [Option.some.injEq, Prod.mk.injEq] at h
                exact h.1.symm
            · rw [if_neg hpos] at h
              simp only [Option.some.injEq, Prod.mk.injEq] at h
              exact h.1.symm
        rw [hb0]
        exact ih (Tensor.apply down x) heads b0 n0 h1 hh
  · intro n x b u h2 h
    constructor
    · simp only [Network.forward, h, Bool.false_eq_true, if_false]
    · simp only [Network.forward, h, if_true]

/-- A small concrete skip chain and network used to exercise the forward
protocol on explicit values. -/
def tinyDown : Block := .conv false 2 1 4 (.scalar 3) (.scalar 1)

def tinyUp : Block := .up 2 8 4 (.scalar 3) (.scalar 2) (.scalar 1) false

def tinyBottleneck : Block := .conv false 2 4 8 (.scalar 3) (.scalar 2)

def tinyChain : SkipNode := .skip 0 tinyDown tinyUp (.leaf tinyBottleneck) none

def tinyNet : Network :=
  { filters := [4, 8]
    input_block := tinyDown
    downsamples := []
    bottleneck := tinyBottleneck
    upsamples := [tinyUp]
    cls_output_block := .clsOut 2 8 2 "max" 2
    seg_output_block := .segOut 2 4 3
    deep_supr_num := 0
    heads_init := []
    deep_supervision_heads := []
    skip_layers := tinyChain }

/-- C9 witness: the passthrough theorem applied to the concrete one-level
chain `tinyChain` and the network `tinyNet` built on it. -/
theorem bottleneck_passthrough_w :
    Tensor.apply tinyBottleneck (Tensor.apply tinyDown Tensor.input) =
      Tensor.apply tinyChain.leafBlock (tinyChain.descend Tensor.input) ∧
    tinyNet.forward false Tensor.input =
      some (Tensor.apply tinyNet.cls_output_block
          (Tensor.apply tinyBottleneck (Tensor.apply tinyDown Tensor.input)),
        Tensor.apply tinyNet.seg_output_block
          (Tensor.applyUp tinyUp
            (Tensor.apply tinyBottleneck (Tensor.apply tinyDown Tensor.input))
            (Tensor.apply tinyDown Tensor.input))) :=
  ⟨bottleneck_passthrough.1 tinyChain Tensor.input []
      (Tensor.apply tinyBottleneck (Tensor.apply tinyDown Tensor.input))
      (Tensor.applyUp tinyUp
        (Tensor.apply tinyBottleneck (Tensor.apply tinyDown Tensor.input))
        (Tensor.apply tinyDown Tensor.input)) [] rfl,
    (bottleneck_passthrough.2 tinyNet Tensor.input
      (Tensor.apply tinyBottleneck (Tensor.apply tinyDown Tensor.input))
      (Tensor.applyUp tinyUp
        (Tensor.apply tinyBottleneck (Tensor.apply tinyDown Tensor.input))
        (Tensor.apply tinyDown Tensor.input)) [] rfl).1⟩

/-- C8 witness: the kernel/stride check accepts `validSpec`, which satisfies
the spec-side validity condition. -/
theorem kernel_stride_check_iff_w : kernelStrideSpecValid validSpec :=
  (kernel_stride_check_iff validSpec).mp rfl

/-- C4 witness: with four strides and `deep_supr_num = 3`, the range check
fires, matching the amended condition `deep_supr_num >= len(strides) - 1`. -/
theorem deep_supr_range_check_iff_w :
    DynUNet.get_deep_supervision_heads { validSpec with deep_supr_num := 3 }
      [32, 64, 128, 256] = .error .deepSupervisionRange :=
  (deep_supr_range_check_iff { validSpec with deep_supr_num := 3 }
    [32, 64, 128, 256]).mpr (by decide)
